import Mathlib

/-!
Verification of the ripplesocial data-model invariants.

We give a shallow embedding of the repository's database schema, its
row-level-security policies and its trigger functions (from the SQL
migrations) and of the feed / notification client code (from the
TypeScript components), and prove or refute the specification's claims
about them.

Conventions of the embedding:
* uuids are `Nat`; a nullable column of uuid type is `Option Nat`;
* `timestamptz` values are rationals counting seconds since the epoch;
* SQL `numeric` is `ℚ`, SQL `integer` is `ℤ`;
* an SQL comparison `auth.uid() = col` on a nullable column is `false`
  when the column is null, as in SQL three-valued logic;
* a statement rejected by a constraint or policy leaves the state
  unchanged.
-/

namespace Ripple

abbrev Uuid := Nat

/-- The `privacy_level` enum: `('public', 'private', 'recipient_only')`. -/
inductive PrivacyLevel where
  | public
  | private_
  | recipient_only
deriving DecidableEq, Repr

/-- The `notification_type` enum. -/
inductive NotificationType where
  | tagged
  | like
  | comment
  | match_found
  | verification_complete
deriving DecidableEq, Repr

/-- A row of the `posts` table (the columns the claims are about). -/
structure PostRow where
  id : Uuid
  author_id : Option Uuid
  recipient_id : Option Uuid
  privacy_level : PrivacyLevel
  recipient_visibility_override : Option PrivacyLevel
  like_count : ℤ
  comment_count : ℤ
  engagement_score : ℚ
  created_at : ℚ
deriving DecidableEq, Repr

/-- A row of the `post_likes` table (`UNIQUE(post_id, user_id)`). -/
structure LikeRow where
  post_id : Uuid
  user_id : Uuid
deriving DecidableEq, Repr

/-- A row of the `comments` table (the columns the claims are about). -/
structure CommentRow where
  post_id : Uuid
  author_id : Uuid
deriving DecidableEq, Repr

/-- A row of the `notifications` table. -/
structure NotificationRow where
  id : Uuid
  user_id : Uuid
  ntype : NotificationType
  post_id : Option Uuid
  triggering_user_id : Option Uuid
  message : String
  read : Bool
deriving DecidableEq, Repr

/-- A row of the `pending_recipient_matches` table (the mutable part). -/
structure MatchRow where
  matched : Bool
  matched_user_id : Option Uuid
deriving DecidableEq, Repr

/-- SQL `auth.uid() = col` on a nullable uuid column: null compares false. -/
def uidEq (uid : Uuid) (col : Option Uuid) : Bool :=
  col = some uid

/-! ## The posts SELECT policy (migration `part_005`, policy
"Public posts are viewable by everyone", `FOR SELECT TO authenticated`). -/

/-- The `USING` clause of the posts SELECT policy, evaluated for an
authenticated viewer `uid` on row `p`: a `CASE` on
`recipient_visibility_override` falling back to a `CASE` on
`privacy_level`. -/
def posts_select_using (uid : Uuid) (p : PostRow) : Bool :=
  match p.recipient_visibility_override with
  | some .public => true
  | some .recipient_only => uidEq uid p.recipient_id || uidEq uid p.author_id
  | some .private_ => uidEq uid p.recipient_id || uidEq uid p.author_id
  | none =>
    match p.privacy_level with
    | .public => true
    | .recipient_only => uidEq uid p.recipient_id || uidEq uid p.author_id
    | .private_ => uidEq uid p.author_id

/-- The visibility decision of the code for an arbitrary viewer (possibly
anonymous).  The one SELECT policy on `posts` is declared
`TO authenticated`, so a request without an authenticated uid matches no
policy and sees no rows. -/
def visible (viewer : Option Uuid) (p : PostRow) : Bool :=
  match viewer with
  | none => false
  | some uid => posts_select_using uid p

/-- Modelled from the spec, section 4.1: if the override is non-null it is
the effective level, else `privacy_level` is; `public` is visible to
everyone, `recipient_only` to author or recipient, `private` to the author
only when no override is set but to author or recipient when set via the
override. -/
def spec_visible (viewer : Option Uuid) (p : PostRow) : Bool :=
  let viewerIs : Option Uuid → Bool := fun col =>
    match viewer with
    | none => false
    | some uid => uidEq uid col
  match p.recipient_visibility_override with
  | some lvl =>
    match lvl with
    | .public => true
    | .recipient_only => viewerIs p.author_id || viewerIs p.recipient_id
    | .private_ => viewerIs p.author_id || viewerIs p.recipient_id
  | none =>
    match p.privacy_level with
    | .public => true
    | .recipient_only => viewerIs p.author_id || viewerIs p.recipient_id
    | .private_ => viewerIs p.author_id

/-- A concrete public post with no override, used as counterexample input. -/
def publicPost : PostRow :=
  { id := 1
    author_id := some 10
    recipient_id := some 11
    privacy_level := .public
    recipient_visibility_override := none
    like_count := 0
    comment_count := 0
    engagement_score := 0
    created_at := 0 }

/-! ## Pending-recipient-match UPDATE policy (migration `part_006`, policy
"Users can update their own matches"). -/

/-- The `USING` clause: `matched = false OR matched_user_id = auth.uid()`. -/
def matches_update_using (uid : Uuid) (r : MatchRow) : Bool :=
  (r.matched = false) || uidEq uid r.matched_user_id

/-- The `WITH CHECK` clause:
`matched_user_id = auth.uid() OR matched_user_id IS NULL`. -/
def matches_update_check (uid : Uuid) (r : MatchRow) : Bool :=
  uidEq uid r.matched_user_id || (r.matched_user_id = none)

/-- An UPDATE of a pending match row from `old` to `new` by user `uid` is
authorized iff the old row passes `USING` and the new row passes
`WITH CHECK`. -/
def matchUpdateAllowed (uid : Uuid) (old new : MatchRow) : Bool :=
  matches_update_using uid old && matches_update_check uid new

/-! ## Notifications policies. -/

/-- The `WITH CHECK` clause of the notifications INSERT policy
"Users can create notifications for their posts" (migration `part_006`):
an `EXISTS` over `posts` matching the new row's `post_id` with
`author_id = auth.uid()`, or the same with `recipient_id = auth.uid()`. -/
def notifications_insert_check (posts : List PostRow) (uid : Uuid)
    (n : NotificationRow) : Bool :=
  (posts.any fun p => n.post_id = some p.id && uidEq uid p.author_id)
    || (posts.any fun p => n.post_id = some p.id && uidEq uid p.recipient_id)

/-- The notifications UPDATE policy "Users can update own notifications"
(migration `part_005`): `USING (auth.uid() = user_id)` and
`WITH CHECK (auth.uid() = user_id)`; no column or value restriction. -/
def notifUpdateAllowed (uid : Uuid) (old new : NotificationRow) : Bool :=
  (old.user_id = uid) && (new.user_id = uid)

/-- A concrete already-read notification owned by user 7. -/
def readNotification : NotificationRow :=
  { id := 3
    user_id := 7
    ntype := .like
    post_id := some 1
    triggering_user_id := some 2
    message := ""
    read := true }

/-! ## Theorems: C1. -/

/-- C1: the claim as stated is false: it quantifies over all viewers,
null included, and says a `public` post is visible to everyone; but the
posts SELECT policy is declared `TO authenticated`, so the code denies an
anonymous viewer even a public post. -/
theorem posts_policy_denies_anonymous_public_counterexample :
    visible none publicPost = false ∧ spec_visible none publicPost = true := by
  constructor <;> rfl

/-- C1 (amended): for every authenticated viewer, the visibility decision
of the posts SELECT policy equals the spec section 4.1 resolver exactly,
including the override-precedence rule and the private/override
asymmetry. -/
theorem visible_matches_spec_resolver_for_authenticated
    (uid : Uuid) (p : PostRow) :
    visible (some uid) p = spec_visible (some uid) p := by
  unfold visible spec_visible posts_select_using
  rcases h : p.recipient_visibility_override with _ | lvl
  · cases p.privacy_level <;> simp [Bool.or_comm]
  · cases lvl <;> simp [Bool.or_comm]

/-! ## Theorems: C3. -/

/-- C3: the claim as stated is false: the `WITH CHECK` clause of the
pending-match UPDATE policy accepts `matched_user_id IS NULL`, so an
authorized update can produce a row with `matched = true` and no claimer
id at all. -/
theorem matched_without_claimer_counterexample :
    matchUpdateAllowed 5 ⟨false, none⟩ ⟨true, none⟩ = true ∧
      (⟨true, none⟩ : MatchRow).matched = true ∧
      (⟨true, none⟩ : MatchRow).matched_user_id = none := by
  refine ⟨rfl, rfl, rfl⟩

/-- C3 (amended): an authorized update of a pending match row can only
set `matched_user_id` to the updater's own id or to null: whenever the
updated row carries some claimer id, it is the id of the user who
performed the update, so no user can install another user's id. -/
theorem match_update_sets_claimer_or_null
    (uid : Uuid) (old new : MatchRow)
    (hAllowed : matchUpdateAllowed uid old new = true) :
    new.matched_user_id = some uid ∨ new.matched_user_id = none := by
  unfold matchUpdateAllowed matches_update_check uidEq at hAllowed
  rw [Bool.and_eq_true] at hAllowed
  obtain ⟨-, hCheck⟩ := hAllowed
  rw [Bool.or_eq_true] at hCheck
  rcases hCheck with h | h
  · left
    simpa using h
  · right
    simpa using h

/-- Witness for `match_update_sets_claimer_or_null` at a concrete
authorized update. -/
theorem match_update_sets_claimer_or_null_witness :
    matchUpdateAllowed 4 ⟨false, none⟩ ⟨true, some 4⟩ = true ∧
      ((⟨true, some 4⟩ : MatchRow).matched_user_id = some 4 ∨
        (⟨true, some 4⟩ : MatchRow).matched_user_id = none) :=
  ⟨by decide,
    match_update_sets_claimer_or_null 4 ⟨false, none⟩ ⟨true, some 4⟩ (by decide)⟩

/-! ## Theorems: C7. -/

/-- C7: a pending match with `matched = false` can be claimed by user
`u1` (setting `matched = true, matched_user_id = u1`), and afterwards any
update attempt on the row by a different user `u2` fails the policy's
`USING` clause, whatever new row it proposes, so the row keeps
`matched_user_id = u1`. -/
theorem second_claim_rejected
    (u1 u2 : Uuid) (hNe : u2 ≠ u1) (r0 : MatchRow)
    (hUnmatched : r0.matched = false) :
    matchUpdateAllowed u1 r0 ⟨true, some u1⟩ = true ∧
      ∀ r2 : MatchRow, matchUpdateAllowed u2 ⟨true, some u1⟩ r2 = false := by
  constructor
  · unfold matchUpdateAllowed matches_update_using matches_update_check uidEq
    simp [hUnmatched]
  · intro r2
    unfold matchUpdateAllowed matches_update_using uidEq
    simp [Ne.symm hNe]

/-- Witness for `second_claim_rejected` at concrete users 1 and 2. -/
theorem second_claim_rejected_witness :
    matchUpdateAllowed 1 ⟨false, none⟩ ⟨true, some 1⟩ = true ∧
      ∀ r2 : MatchRow, matchUpdateAllowed 2 ⟨true, some 1⟩ r2 = false :=
  second_claim_rejected 1 2 (by decide) ⟨false, none⟩ rfl

/-! ## Theorems: C4. -/

/-- C4: an insert by user `A` of a notification row `n` referencing post
`P` (the unique post whose id `n.post_id` names) passes the notifications
INSERT policy iff `A` is the author or the recipient of `P`; in
particular a user unrelated to `P` cannot create a notification for
another user referencing `P`. -/
theorem notification_insert_requires_author_or_recipient
    (posts : List PostRow) (A : Uuid) (n : NotificationRow) (P : PostRow)
    (hMem : P ∈ posts) (hRef : n.post_id = some P.id)
    (hUnique : ∀ q ∈ posts, q.id = P.id → q = P) :
    notifications_insert_check posts A n = true ↔
      (P.author_id = some A ∨ P.recipient_id = some A) := by
  unfold notifications_insert_check uidEq
  constructor
  · intro h
    rw [Bool.or_eq_true] at h
    rcases h with h | h <;>
      · rw [List.any_eq_true] at h
        obtain ⟨q, hq, hcond⟩ := h
        rw [Bool.and_eq_true] at hcond
        obtain ⟨hid, hrel⟩ := hcond
        have hqid : q.id = P.id := by
          have := of_decide_eq_true hid
          rw [hRef] at this
          exact (Option.some.inj this).symm
        have hqP : q = P := hUnique q hq hqid
        subst hqP
        first
          | exact Or.inl (of_decide_eq_true hrel)
          | exact Or.inr (of_decide_eq_true hrel)
  · intro h
    rw [Bool.or_eq_true]
    rcases h with h | h
    · left
      rw [List.any_eq_true]
      exact ⟨P, hMem, by simp [hRef, h]⟩
    · right
      rw [List.any_eq_true]
      exact ⟨P, hMem, by simp [hRef, h]⟩

/-- A concrete one-post table for the C4 witness: post 1 authored by user
10 with recipient 11. -/
def c4Posts : List PostRow := [publicPost]

/-- A concrete notification referencing post 1, targeting user 9. -/
def c4Notification : NotificationRow :=
  { id := 0
    user_id := 9
    ntype := .like
    post_id := some 1
    triggering_user_id := some 10
    message := ""
    read := false }

/-- Witness for `notification_insert_requires_author_or_recipient`: user
99 is neither author nor recipient of post 1, so the insert is rejected. -/
theorem notification_insert_requires_author_or_recipient_witness :
    notifications_insert_check c4Posts 99 c4Notification = true ↔
      (publicPost.author_id = some 99 ∨ publicPost.recipient_id = some 99) :=
  notification_insert_requires_author_or_recipient c4Posts 99 c4Notification
    publicPost (by decide) (by decide) (by decide)

/-! ## Theorems: C9. -/

/-- C9: the claim as stated is false: the notifications UPDATE policy
only checks row ownership, so an update by the owner that reverses `read`
from `true` back to `false` is an authorized operation. -/
theorem notification_read_reversal_authorized_counterexample :
    notifUpdateAllowed 7 readNotification
        { readNotification with read := false } = true ∧
      readNotification.read = true ∧
      ({ readNotification with read := false } : NotificationRow).read
        = false := by
  refine ⟨rfl, rfl, rfl⟩

/-- Setting `read := true`, the effect of the client's update
`{ read: true }` on one row. -/
def setRead (n : NotificationRow) : NotificationRow :=
  { n with read := true }

/-- The client's only notification update (`NotificationPanel.
loadNotifications`): collect the ids of the unread rows and set
`read := true` exactly on those ids. -/
def markAllRead (ns : List NotificationRow) : List NotificationRow :=
  let unreadIds := (ns.filter fun n => !n.read).map (fun n => n.id)
  ns.map fun n => if n.id ∈ unreadIds then setRead n else n

/-- C9 (amended): the only update the client code ever issues marks every
unread notification read and changes nothing else: its effect on the
loaded list is exactly `setRead` on every row, so under client-issued
operations `read` transitions `false → true` once and never reverses, and
no other field changes.  (The RLS policy itself, however, permits the
owner to reverse `read`: see the counterexample.) -/
theorem markAllRead_sets_read_only (ns : List NotificationRow) :
    markAllRead ns = ns.map setRead := by
  unfold markAllRead
  apply List.map_congr_left
  intro n hn
  by_cases hr : n.read
  · have : setRead n = n := by
      unfold setRead
      cases n
      simp_all
    by_cases hmem : n.id ∈ ((ns.filter fun m => !m.read).map fun m => m.id)
    · simp [hmem]
    · simp [hmem, this]
  · have hmem : n.id ∈ ((ns.filter fun m => !m.read).map fun m => m.id) := by
      apply List.mem_map.mpr
      exact ⟨n, List.mem_filter.mpr ⟨hn, by simp [hr]⟩, rfl⟩
    simp [hmem]

/-! ## The trigger-maintained database state.

`DbState` carries the tables the triggers touch.  Each mutating statement
is a function on `DbState` applying the statement itself followed by the
`AFTER` row triggers attached to the table, in their firing order
(alphabetical by trigger name, each later trigger seeing the earlier
ones' updates).  A statement rejected by a constraint (duplicate like,
missing referenced post) leaves the state unchanged. -/

structure DbState where
  posts : List PostRow
  likes : List LikeRow
  comments : List CommentRow
  notifications : List NotificationRow
deriving Repr

/-- `UPDATE posts SET ... WHERE id = pid`: apply `f` to every posts row
whose id is `pid`. -/
def updatePost (pid : Uuid) (f : PostRow → PostRow) (posts : List PostRow) :
    List PostRow :=
  posts.map fun p => if p.id = pid then f p else p

/-- The engagement formula of `update_engagement_score` (migrations
`part_005` and `part_006`, identical in both):
`(like_count * 1.0) + (comment_count * 2.0) +
 (EXTRACT(EPOCH FROM (now() - created_at)) / 3600.0 * -0.1)`. -/
def engagementFormula (likes comments : ℤ) (created now : ℚ) : ℚ :=
  (likes * 1 : ℚ) + (comments * 2 : ℚ) + (now - created) / 3600 * (-1 / 10)

/-- Modelled from the spec, section 3:
`engagement_score = likes * 1.0 + comments * 2.0 +
 (hours_since_creation * -0.1)`. -/
def specEngagement (likes comments : ℤ) (hours : ℚ) : ℚ :=
  (likes : ℚ) * 1 + (comments : ℚ) * 2 + hours * (-1 / 10)

/-- The body of trigger function `update_engagement_score` as recreated
by migration `part_006`: recompute the score of the post named by
`target_post_id` (`OLD.post_id` on delete, `NEW.post_id` otherwise) from
its current counters and age. -/
def update_engagement_score (now : ℚ) (target_post_id : Uuid)
    (posts : List PostRow) : List PostRow :=
  updatePost target_post_id
    (fun p =>
      { p with engagement_score :=
          engagementFormula p.like_count p.comment_count p.created_at now })
    posts

/-- The INSERT branch of trigger function `update_like_count`:
`UPDATE posts SET like_count = like_count + 1 WHERE id = NEW.post_id`. -/
def update_like_count_ins (pid : Uuid) (posts : List PostRow) :
    List PostRow :=
  updatePost pid (fun p => { p with like_count := p.like_count + 1 }) posts

/-- The DELETE branch of trigger function `update_like_count`, fired once
per deleted row: `like_count - 1` at `OLD.post_id`; `n` rows deleted in
one statement decrement by `n`. -/
def update_like_count_del (pid : Uuid) (n : ℕ) (posts : List PostRow) :
    List PostRow :=
  updatePost pid (fun p => { p with like_count := p.like_count - n }) posts

/-- The INSERT branch of trigger function `update_comment_count`. -/
def update_comment_count_ins (pid : Uuid) (posts : List PostRow) :
    List PostRow :=
  updatePost pid (fun p => { p with comment_count := p.comment_count + 1 }) posts

/-- The DELETE branch of trigger function `update_comment_count`, fired
once per deleted row. -/
def update_comment_count_del (pid : Uuid) (n : ℕ) (posts : List PostRow) :
    List PostRow :=
  updatePost pid (fun p => { p with comment_count := p.comment_count - n }) posts

/-- The message inserted by `create_like_notification`. -/
def likeMessage : String := "Someone liked your story"

/-- The message inserted by `create_comment_notification`. -/
def commentMessage : String := "Someone commented on your story"

/-- Trigger function `create_like_notification`: select the author of
`NEW.post_id`; if it is non-null and differs from `NEW.user_id`, insert
one notification of type `like` for the author, triggered by the liker.
(The fresh uuid of the inserted row is modelled as 0.) -/
def create_like_notification (posts : List PostRow) (l : LikeRow) :
    List NotificationRow :=
  match (posts.find? fun p => p.id = l.post_id).bind (fun p => p.author_id) with
  | none => []
  | some a =>
    if a = l.user_id then []
    else [{ id := 0
            user_id := a
            ntype := .like
            post_id := some l.post_id
            triggering_user_id := some l.user_id
            message := likeMessage
            read := false }]

/-- Trigger function `create_comment_notification`, same shape for a new
comment row. -/
def create_comment_notification (posts : List PostRow) (c : CommentRow) :
    List NotificationRow :=
  match (posts.find? fun p => p.id = c.post_id).bind (fun p => p.author_id) with
  | none => []
  | some a =>
    if a = c.author_id then []
    else [{ id := 0
            user_id := a
            ntype := .comment
            post_id := some c.post_id
            triggering_user_id := some c.author_id
            message := commentMessage
            read := false }]

/-- The `(post_id, user_id)` key test on a like row. -/
def likeKey (pid uid : Uuid) (e : LikeRow) : Bool :=
  e.post_id = pid && e.user_id = uid

/-- `INSERT INTO post_likes`: rejected on the `UNIQUE(post_id, user_id)`
constraint or a missing referenced post; otherwise the row is added and
the three `AFTER INSERT` triggers fire in name order:
`trigger_create_like_notification`, then `trigger_update_like_count`,
then `update_post_engagement_on_like` (which reads the already bumped
`like_count`). -/
def insertLike (now : ℚ) (l : LikeRow) (s : DbState) : DbState :=
  if s.likes.any (likeKey l.post_id l.user_id) then s
  else if !(s.posts.any fun p => p.id = l.post_id) then s
  else
    { s with
      likes := l :: s.likes
      notifications := s.notifications ++ create_like_notification s.posts l
      posts :=
        update_engagement_score now l.post_id
          (update_like_count_ins l.post_id s.posts) }

/-- `DELETE FROM post_likes WHERE post_id = pid AND user_id = uid` (the
client's unlike): remove the matching rows; for each removed row the two
`AFTER DELETE` triggers fire in name order, `trigger_update_like_count`
then `update_post_engagement_on_like` keyed to `OLD.post_id`; with `n`
rows removed the decrements compose to `-n` and the last recomputation
reads the final counter. -/
def deleteLike (now : ℚ) (pid uid : Uuid) (s : DbState) : DbState :=
  let removed := s.likes.filter (likeKey pid uid)
  if removed.isEmpty then s
  else
    { s with
      likes := s.likes.filter fun e => !(likeKey pid uid e)
      posts :=
        update_engagement_score now pid
          (update_like_count_del pid removed.length s.posts) }

/-- `INSERT INTO comments`: rejected on a missing referenced post;
otherwise the row is added and the two `AFTER INSERT` triggers fire:
`trigger_create_comment_notification` then `trigger_update_comment_count`.
No trigger on `comments` recomputes `engagement_score`. -/
def insertComment (c : CommentRow) (s : DbState) : DbState :=
  if !(s.posts.any fun p => p.id = c.post_id) then s
  else
    { s with
      comments := c :: s.comments
      notifications := s.notifications ++ create_comment_notification s.posts c
      posts := update_comment_count_ins c.post_id s.posts }

/-- Number of existing `post_likes` rows for post `pid`. -/
def countLikes (pid : Uuid) (likes : List LikeRow) : ℕ :=
  (likes.filter fun e => e.post_id = pid).length

/-- The consistency relation of claim C5: every posts row's `like_count`
equals the number of currently existing like rows for it. -/
def likeCountConsistent (s : DbState) : Prop :=
  ∀ p ∈ s.posts, p.like_count = (countLikes p.id s.likes : ℤ)

instance (s : DbState) : Decidable (likeCountConsistent s) := by
  unfold likeCountConsistent
  infer_instance

/-- A single Like-row mutation: an insert of a row or a delete keyed by
`(post_id, user_id)`, each stamped with the wall-clock time at which it
runs. -/
inductive LikeOp where
  | ins (now : ℚ) (l : LikeRow)
  | del (now : ℚ) (pid uid : Uuid)

/-- Apply one Like-row mutation with its triggers. -/
def applyLikeOp (s : DbState) : LikeOp → DbState
  | .ins now l => insertLike now l s
  | .del now pid uid => deleteLike now pid uid s

/-- Apply a finite sequence of Like-row mutations. -/
def applyLikeOps (s : DbState) (ops : List LikeOp) : DbState :=
  ops.foldl applyLikeOp s

/-! ## Counting lemmas for the like-count invariant. -/

lemma countLikes_eq_countP (pid : Uuid) (likes : List LikeRow) :
    countLikes pid likes = likes.countP fun e => e.post_id = pid := by
  unfold countLikes
  rw [List.countP_eq_length_filter]

lemma countLikes_cons (pid : Uuid) (e : LikeRow) (likes : List LikeRow) :
    countLikes pid (e :: likes)
      = countLikes pid likes + (if e.post_id = pid then 1 else 0) := by
  unfold countLikes
  by_cases h : e.post_id = pid <;> simp [List.filter_cons, h]

/-- If the key test holds, the row references post `pid`. -/
lemma likeKey_post_id {pid uid : Uuid} {e : LikeRow}
    (h : likeKey pid uid e = true) : e.post_id = pid := by
  unfold likeKey at h
  rw [Bool.and_eq_true] at h
  exact of_decide_eq_true h.1

/-- The rows removed by an unlike of `(pid, uid)` split off from the
count of post `pid`'s likes. -/
lemma countLikes_after_delete (pid uid : Uuid) (likes : List LikeRow) :
    countLikes pid (likes.filter fun e => !(likeKey pid uid e))
        + (likes.filter (likeKey pid uid)).length
      = countLikes pid likes := by
  induction likes with
  | nil => rfl
  | cons e rest ih =>
    rw [List.filter_cons, List.filter_cons, countLikes_cons]
    cases hk : likeKey pid uid e with
    | true =>
      rw [if_neg (show ¬((!true) = true) by decide),
        if_pos (show (true = true) by decide),
        if_pos (likeKey_post_id hk), List.length_cons]
      omega
    | false =>
      rw [if_pos (show ((!false) = true) by decide),
        if_neg (show ¬(false = true) by decide), countLikes_cons]
      by_cases h1 : e.post_id = pid
      · rw [if_pos h1]
        omega
      · rw [if_neg h1]
        omega

/-- An unlike of `(pid, uid)` does not change the like count of a
different post. -/
lemma countLikes_after_delete_other (pid uid qid : Uuid) (hne : qid ≠ pid)
    (likes : List LikeRow) :
    countLikes qid (likes.filter fun e => !(likeKey pid uid e))
      = countLikes qid likes := by
  induction likes with
  | nil => rfl
  | cons e rest ih =>
    rw [List.filter_cons, countLikes_cons]
    cases hk : likeKey pid uid e with
    | true =>
      have hq : ¬(e.post_id = qid) := fun hc =>
        hne (by rw [← hc, likeKey_post_id hk])
      rw [if_neg (show ¬((!true) = true) by decide), if_neg hq, ih]
      omega
    | false =>
      rw [if_pos (show ((!false) = true) by decide), countLikes_cons, ih]

/-! ## Membership through `UPDATE ... WHERE id = pid`. -/

lemma mem_updatePost {q : PostRow} {pid : Uuid} {f : PostRow → PostRow}
    {posts : List PostRow} (hq : q ∈ updatePost pid f posts) :
    ∃ p ∈ posts, q = if p.id = pid then f p else p := by
  unfold updatePost at hq
  rw [List.mem_map] at hq
  obtain ⟨p, hp, hpq⟩ := hq
  exact ⟨p, hp, hpq.symm⟩

lemma mem_updatePost_of_mem {p : PostRow} {pid : Uuid} {f : PostRow → PostRow}
    {posts : List PostRow} (hp : p ∈ posts) :
    (if p.id = pid then f p else p) ∈ updatePost pid f posts := by
  unfold updatePost
  exact List.mem_map.mpr ⟨p, hp, rfl⟩

/-- Every row of the posts table after a like insert's two counter
triggers corresponds to an original row, with `like_count` bumped exactly
on the target post, `comment_count` and `created_at` untouched, and the
target row's score freshly recomputed. -/
lemma mem_posts_after_like_ins {q : PostRow} (now : ℚ) (pid : Uuid)
    (posts : List PostRow)
    (hq : q ∈ update_engagement_score now pid (update_like_count_ins pid posts)) :
    ∃ p ∈ posts, q.id = p.id ∧ q.comment_count = p.comment_count ∧
      q.created_at = p.created_at ∧
      (if p.id = pid
        then q.like_count = p.like_count + 1 ∧
          q.engagement_score =
            engagementFormula (p.like_count + 1) p.comment_count p.created_at now
        else q = p) := by
  unfold update_engagement_score at hq
  obtain ⟨p1, hp1, hq1⟩ := mem_updatePost hq
  unfold update_like_count_ins at hp1
  obtain ⟨p, hp, hp1e⟩ := mem_updatePost hp1
  refine ⟨p, hp, ?_⟩
  by_cases hid : p.id = pid
  · subst hp1e
    simp only [hid, if_true] at hq1 ⊢
    subst hq1
    simp
  · subst hp1e
    simp only [hid, if_false] at hq1 ⊢
    subst hq1
    simp [hid]

/-- The same correspondence for the two triggers fired by deleting `n`
like rows of the target post. -/
lemma mem_posts_after_like_del {q : PostRow} (now : ℚ) (pid : Uuid) (n : ℕ)
    (posts : List PostRow)
    (hq : q ∈ update_engagement_score now pid
      (update_like_count_del pid n posts)) :
    ∃ p ∈ posts, q.id = p.id ∧ q.comment_count = p.comment_count ∧
      q.created_at = p.created_at ∧
      (if p.id = pid
        then q.like_count = p.like_count - n ∧
          q.engagement_score =
            engagementFormula (p.like_count - n) p.comment_count p.created_at now
        else q = p) := by
  unfold update_engagement_score at hq
  obtain ⟨p1, hp1, hq1⟩ := mem_updatePost hq
  unfold update_like_count_del at hp1
  obtain ⟨p, hp, hp1e⟩ := mem_updatePost hp1
  refine ⟨p, hp, ?_⟩
  by_cases hid : p.id = pid
  · subst hp1e
    simp only [hid, if_true] at hq1 ⊢
    subst hq1
    simp
  · subst hp1e
    simp only [hid, if_false] at hq1 ⊢
    subst hq1
    simp [hid]

/-- One Like-row mutation preserves the like-count consistency relation. -/
lemma likeCount_step (op : LikeOp) (s : DbState)
    (h : likeCountConsistent s) :
    likeCountConsistent (applyLikeOp s op) := by
  cases op with
  | ins now l =>
    simp only [applyLikeOp, insertLike]
    split_ifs with hdup hpost
    · exact h
    · exact h
    · intro q hq
      simp only at hq ⊢
      obtain ⟨p, hp, hid, hcc, hca, hrest⟩ :=
        mem_posts_after_like_ins now l.post_id s.posts hq
      rw [hid, countLikes_cons]
      by_cases hpid : p.id = l.post_id
      · rw [if_pos hpid] at hrest
        obtain ⟨hlc, -⟩ := hrest
        rw [hlc, h p hp, if_pos hpid.symm]
        push_cast
        ring
      · rw [if_neg hpid] at hrest
        subst hrest
        rw [if_neg (fun hc => hpid hc.symm), h q hp]
        simp
  | del now pid uid =>
    simp only [applyLikeOp, deleteLike]
    split_ifs with hempty
    · exact h
    · intro q hq
      simp only at hq ⊢
      obtain ⟨p, hp, hid, hcc, hca, hrest⟩ :=
        mem_posts_after_like_del now pid _ s.posts hq
      rw [hid]
      by_cases hpid : p.id = pid
      · rw [if_pos hpid] at hrest
        obtain ⟨hlc, -⟩ := hrest
        have hsplit := countLikes_after_delete pid uid s.likes
        have hcons := h p hp
        rw [hpid] at hcons
        rw [hpid, hlc, hcons]
        omega
      · rw [if_neg hpid] at hrest
        subst hrest
        rw [countLikes_after_delete_other pid uid q.id hpid s.likes]
        exact h q hp

/-! ## Theorems: C5. -/

/-- C5: for every finite sequence of Like-row inserts and deletes
(delete-only sequences included), from any state in which every post's
`like_count` equals its number of like rows, the state after the sequence
still has every post's `like_count` equal to its number of currently
existing like rows. -/
theorem like_count_consistency_preserved (s : DbState) (ops : List LikeOp)
    (h : likeCountConsistent s) :
    likeCountConsistent (applyLikeOps s ops) := by
  induction ops generalizing s with
  | nil => exact h
  | cons op rest ih => exact ih (applyLikeOp s op) (likeCount_step op s h)

/-- A state for the C5 witness: one post with one like, counted. -/
def c5State : DbState :=
  { posts := [{ id := 0
                author_id := some 3
                recipient_id := none
                privacy_level := .public
                recipient_visibility_override := none
                like_count := 1
                comment_count := 0
                engagement_score := 1
                created_at := 0 }]
    likes := [⟨0, 1⟩]
    comments := []
    notifications := [] }

/-- A delete-only sequence for the C5 witness. -/
def c5Ops : List LikeOp := [.del 7200 0 1]

/-- Witness for `like_count_consistency_preserved` on a delete-only
sequence. -/
theorem like_count_consistency_preserved_witness :
    likeCountConsistent c5State ∧
      likeCountConsistent (applyLikeOps c5State c5Ops) :=
  ⟨by decide, like_count_consistency_preserved c5State c5Ops (by decide)⟩

/-! ## Theorems: C6. -/

lemma engagementFormula_eq_spec (l c : ℤ) (created now : ℚ) :
    engagementFormula l c created now
      = specEngagement l c ((now - created) / 3600) := by
  unfold engagementFormula specEngagement
  ring

/-- C6: every recomputation performed by `update_engagement_score` (as
invoked on every like insert and delete) writes to each targeted post
exactly `likes * 1.0 + comments * 2.0 + hours_since_creation * -0.1`,
with `likes` and `comments` the post's current `like_count` and
`comment_count` and the hours its elapsed age at the recomputation. -/
theorem engagement_recompute_matches_spec_formula (now : ℚ) (pid : Uuid)
    (posts : List PostRow) (q : PostRow)
    (hq : q ∈ update_engagement_score now pid posts) (hid : q.id = pid) :
    q.engagement_score
      = specEngagement q.like_count q.comment_count
          ((now - q.created_at) / 3600) := by
  unfold update_engagement_score at hq
  obtain ⟨p, hp, he⟩ := mem_updatePost hq
  by_cases h : p.id = pid
  · rw [if_pos h] at he
    subst he
    exact engagementFormula_eq_spec p.like_count p.comment_count p.created_at now
  · rw [if_neg h] at he
    subst he
    exact absurd hid h

/-- A post used in several concrete witnesses: id 0, authorless, all
counters zero, created at the epoch. -/
def c2Post : PostRow :=
  { id := 0
    author_id := none
    recipient_id := none
    privacy_level := .public
    recipient_visibility_override := none
    like_count := 0
    comment_count := 0
    engagement_score := 0
    created_at := 0 }

/-- The row written for `c2Post` by a recomputation at one hour of age. -/
def c6Recomputed : PostRow :=
  { c2Post with engagement_score :=
      (engagementFormula c2Post.like_count c2Post.comment_count
        c2Post.created_at 3600) }

/-- Witness for `engagement_recompute_matches_spec_formula` at a concrete
recomputation. -/
theorem engagement_recompute_matches_spec_formula_witness :
    c6Recomputed.engagement_score
      = specEngagement c6Recomputed.like_count c6Recomputed.comment_count
          ((3600 - c6Recomputed.created_at) / 3600) :=
  engagement_recompute_matches_spec_formula 3600 0 [c2Post] c6Recomputed
    (by
      rw [show update_engagement_score 3600 0 [c2Post] = [c6Recomputed] from rfl]
      exact List.mem_singleton.mpr rfl)
    rfl

/-! ## Theorems: C2. -/

/-- A one-post state for the C2 counterexample. -/
def c2State : DbState :=
  { posts := [c2Post], likes := [], comments := [], notifications := [] }

/-- C2: the claim as stated is false: it requires the engagement score to
be recomputed on every insert of a Comment row, but no trigger on
`comments` invokes `update_engagement_score`; inserting a comment on a
one-hour-old post bumps `comment_count` to 1 yet leaves
`engagement_score` at 0, where a recomputation would have written
`0 * 1.0 + 1 * 2.0 + 1 * -0.1 = 1.9`. -/
theorem comment_insert_no_engagement_recompute_counterexample :
    (insertComment ⟨0, 5⟩ c2State).posts
        = [{ c2Post with comment_count := 1 }] ∧
      ({ c2Post with comment_count := 1 } : PostRow).engagement_score = 0 ∧
      specEngagement 0 1 1 = 19 / 10 ∧ (19 / 10 : ℚ) ≠ 0 := by
  refine ⟨by decide, rfl, by norm_num [specEngagement], by norm_num⟩

lemma insertLike_eq (now : ℚ) (l : LikeRow) (s : DbState)
    (hdup : s.likes.any (likeKey l.post_id l.user_id) = false)
    (hpost : (s.posts.any fun p => p.id = l.post_id) = true) :
    insertLike now l s =
      { s with
        likes := l :: s.likes
        notifications := s.notifications ++ create_like_notification s.posts l
        posts :=
          update_engagement_score now l.post_id
            (update_like_count_ins l.post_id s.posts) } := by
  simp [insertLike, hdup, hpost]

lemma deleteLike_eq (now : ℚ) (pid uid : Uuid) (s : DbState)
    (h : (s.likes.filter (likeKey pid uid)).isEmpty = false) :
    deleteLike now pid uid s =
      { s with
        likes := s.likes.filter fun e => !(likeKey pid uid e)
        posts :=
          update_engagement_score now pid
            (update_like_count_del pid
              (s.likes.filter (likeKey pid uid)).length s.posts) } := by
  simp [deleteLike, h]

/-- C2 (amended): every Like-row insert and delete triggers a
recomputation keyed to the correct post id (the new row's post id on
insert, the old row's on delete): after liking a post and then unliking
it, the post's counters are back to their pre-like values and its
engagement score equals the pre-like counters scored at the unlike time,
i.e. the pre-like value up to elapsed-time decay.  (Comment-row
mutations, by contrast, do not trigger recomputation: see the
counterexample.) -/
theorem like_unlike_roundtrip (t1 t2 : ℚ) (l : LikeRow) (s : DbState)
    (hdup : s.likes.any (likeKey l.post_id l.user_id) = false)
    (hpost : (s.posts.any fun p => p.id = l.post_id) = true) :
    ∀ q ∈ (deleteLike t2 l.post_id l.user_id (insertLike t1 l s)).posts,
      q.id = l.post_id →
      ∃ p ∈ s.posts, p.id = l.post_id ∧ q.like_count = p.like_count ∧
        q.comment_count = p.comment_count ∧
        q.engagement_score
          = specEngagement p.like_count p.comment_count
              ((t2 - p.created_at) / 3600) := by
  intro q hq hqid
  have hkey : likeKey l.post_id l.user_id l = true := by
    simp [likeKey]
  have hfilter : s.likes.filter (likeKey l.post_id l.user_id) = [] := by
    rw [List.filter_eq_nil_iff]
    intro e he
    rw [List.any_eq_false] at hdup
    exact hdup e he
  rw [insertLike_eq t1 l s hdup hpost] at hq
  rw [deleteLike_eq t2 l.post_id l.user_id _
    (by simp [List.filter_cons, hkey, hfilter])] at hq
  simp only at hq
  rw [List.filter_cons, if_pos hkey, hfilter] at hq
  simp only [List.length_cons, List.length_nil] at hq
  obtain ⟨pmid, hpmid, hid2, hcc2, hca2, hrest2⟩ :=
    mem_posts_after_like_del t2 l.post_id 1 _ hq
  obtain ⟨p, hp, hid1, hcc1, hca1, hrest1⟩ :=
    mem_posts_after_like_ins t1 l.post_id s.posts hpmid
  by_cases hpid : p.id = l.post_id
  · rw [if_pos hpid] at hrest1
    obtain ⟨hlc1, -⟩ := hrest1
    have hmid : pmid.id = l.post_id := by rw [hid1, hpid]
    rw [if_pos hmid] at hrest2
    obtain ⟨hlc2, hes2⟩ := hrest2
    refine ⟨p, hp, hpid, ?_, ?_, ?_⟩
    · rw [hlc2, hlc1]
      push_cast
      ring
    · rw [hcc2, hcc1]
    · rw [hes2, hlc1, hcc1, hca1]
      rw [show p.like_count + 1 - (1 : ℕ) = p.like_count by push_cast; ring]
      exact engagementFormula_eq_spec p.like_count p.comment_count
        p.created_at t2
  · rw [if_neg hpid] at hrest1
    subst hrest1
    rw [if_neg (by rw [hid1]; exact hpid)] at hrest2
    subst hrest2
    exact absurd (by rw [← hid2, hqid]) (fun hc => hpid (hid1 ▸ hc))

/-- A state for the C2 witness: `c2Post` with no likes. -/
def c2LikeState : DbState :=
  { posts := [c2Post], likes := [], comments := [], notifications := [] }

/-- The post row left behind by the witness round trip: counters back to
zero, score decayed to two hours of age. -/
def c2Final : PostRow := { c2Post with engagement_score := (-1 / 5 : ℚ) }

/-- Witness for `like_unlike_roundtrip`: like `c2Post` at one hour, unlike
at two hours. -/
theorem like_unlike_roundtrip_witness :
    c2Final ∈ (deleteLike 7200 0 1 (insertLike 3600 ⟨0, 1⟩ c2LikeState)).posts ∧
      ∃ p ∈ c2LikeState.posts, p.id = 0 ∧ c2Final.like_count = p.like_count ∧
        c2Final.comment_count = p.comment_count ∧
        c2Final.engagement_score
          = specEngagement p.like_count p.comment_count
              ((7200 - p.created_at) / 3600) := by
  have hmem : c2Final ∈
      (deleteLike 7200 0 1 (insertLike 3600 ⟨0, 1⟩ c2LikeState)).posts := by
    rw [insertLike_eq 3600 ⟨0, 1⟩ c2LikeState (by decide) (by decide)]
    rw [deleteLike_eq 7200 0 1 _ (by decide)]
    simp [update_engagement_score, update_like_count_ins, update_like_count_del,
      updatePost, likeKey, c2Post, c2Final, engagementFormula, c2LikeState]
    norm_num
  exact ⟨hmem, like_unlike_roundtrip 3600 7200 ⟨0, 1⟩ c2LikeState (by decide)
    (by decide) c2Final hmem rfl⟩

/-! ## Theorems: C10. -/

/-- C10: on a successful like insert, if the liked post's author is null
or is the liker, no notification row is created; otherwise exactly one
notification of type `like` targeting the author is created, with the
liker as triggering user and the fixed message. -/
theorem like_insert_notification_cases (now : ℚ) (l : LikeRow) (s : DbState)
    (P : PostRow)
    (hfind : (s.posts.find? fun p => p.id = l.post_id) = some P)
    (hdup : s.likes.any (likeKey l.post_id l.user_id) = false) :
    ((P.author_id = none ∨ P.author_id = some l.user_id) →
        (insertLike now l s).notifications = s.notifications) ∧
      (∀ v : Uuid, P.author_id = some v → v ≠ l.user_id →
        (insertLike now l s).notifications = s.notifications ++
          [{ id := 0
             user_id := v
             ntype := .like
             post_id := some l.post_id
             triggering_user_id := some l.user_id
             message := likeMessage
             read := false }]) := by
  have hPmem : P ∈ s.posts := List.mem_of_find?_eq_some hfind
  have hPid : P.id = l.post_id := by
    have := List.find?_some hfind
    exact of_decide_eq_true this
  have hpost : (s.posts.any fun p => p.id = l.post_id) = true := by
    rw [List.any_eq_true]
    exact ⟨P, hPmem, by simp [hPid]⟩
  rw [insertLike_eq now l s hdup hpost]
  simp only
  unfold create_like_notification
  rw [hfind]
  simp only [Option.some_bind]
  constructor
  · intro hcase
    rcases hcase with h | h <;> rw [h] <;> simp
  · intro v hv hne
    rw [hv]
    simp [hne]

/-- A state for the C10 witness: `publicPost` (authored by user 10) with
no likes yet. -/
def c10State : DbState :=
  { posts := [publicPost], likes := [], comments := [], notifications := [] }

/-- Witness for `like_insert_notification_cases`: user 2 likes post 1. -/
theorem like_insert_notification_cases_witness :
    ((publicPost.author_id = none ∨ publicPost.author_id = some 2) →
        (insertLike 0 ⟨1, 2⟩ c10State).notifications = c10State.notifications) ∧
      (∀ v : Uuid, publicPost.author_id = some v → v ≠ 2 →
        (insertLike 0 ⟨1, 2⟩ c10State).notifications =
          c10State.notifications ++
            [{ id := 0
               user_id := v
               ntype := .like
               post_id := some 1
               triggering_user_id := some 2
               message := likeMessage
               read := false }]) :=
  like_insert_notification_cases 0 ⟨1, 2⟩ c10State publicPost rfl rfl

/-! ## The feed query builder (`Feed.loadPosts` in
`src/components/feed/feed.tsx` with the constants of
`src/config/constants.ts`). -/

/-- The feed modes of the `Feed` component. -/
inductive FeedMode where
  | public
  | tagged
  | top
  | saved
deriving DecidableEq, Repr

/-- An `ORDER BY` key with descending direction, as used by the feed. -/
inductive OrderKey where
  | createdAtDesc
  | engagementDesc
deriving DecidableEq, Repr

/-- The state a chain of query-builder calls accumulates in the request
parameters. -/
structure PostsQuery where
  eqPrivacyPublic : Bool
  eqRecipient : Option Uuid
  orderKeys : List OrderKey
  limitParam : Option Nat
deriving Repr

/-- `supabase.from('posts').select(...)`: no filters, no order, no limit. -/
def PostsQuery.init : PostsQuery :=
  { eqPrivacyPublic := false
    eqRecipient := none
    orderKeys := []
    limitParam := none }

/-- `.eq('privacy_level', 'public')`. -/
def PostsQuery.eqPublic (q : PostsQuery) : PostsQuery :=
  { q with eqPrivacyPublic := true }

/-- `.eq('recipient_id', user.id)`. -/
def PostsQuery.eqRecip (q : PostsQuery) (u : Uuid) : PostsQuery :=
  { q with eqRecipient := some u }

/-- `.order(column, { ascending: false })`: appends an order key. -/
def PostsQuery.orderBy (q : PostsQuery) (k : OrderKey) : PostsQuery :=
  { q with orderKeys := q.orderKeys ++ [k] }

/-- `.limit(n)`: sets the `limit` request parameter, replacing any value
set by an earlier `.limit` call on the same builder. -/
def PostsQuery.setLimit (q : PostsQuery) (n : Nat) : PostsQuery :=
  { q with limitParam := some n }

/-- `FEED_LIMITS.DEFAULT` from `src/config/constants.ts`. -/
def FEED_LIMITS_DEFAULT : Nat := 50

/-- `FEED_LIMITS.TOP_STORIES` from `src/config/constants.ts`. -/
def FEED_LIMITS_TOP_STORIES : Nat := 20

/-- The query built by `Feed.loadPosts` for the non-saved modes
(feed.tsx lines 69-91): the mode-specific filters, then a `created_at`
order for every mode except `top`, then unconditionally
`.limit(FEED_LIMITS.DEFAULT)`. -/
def buildFeedQuery (mode : FeedMode) (user : Option Uuid) : PostsQuery :=
  let q0 := PostsQuery.init
  let q1 :=
    match mode, user with
    | .public, _ => q0.eqPublic
    | .tagged, some u => q0.eqRecip u
    | .top, _ =>
      ((q0.eqPublic).orderBy .engagementDesc).setLimit FEED_LIMITS_TOP_STORIES
    | _, _ => q0
  let q2 := if mode = FeedMode.top then q1 else q1.orderBy .createdAtDesc
  q2.setLimit FEED_LIMITS_DEFAULT

/-- Three-way comparison on rationals. -/
def cmpQ (x y : ℚ) : Ordering :=
  if x < y then .lt else if x = y then .eq else .gt

/-- One order key compared descending. -/
def keyCmp : OrderKey → PostRow → PostRow → Ordering
  | .createdAtDesc, a, b => cmpQ b.created_at a.created_at
  | .engagementDesc, a, b => cmpQ b.engagement_score a.engagement_score

/-- Lexicographic "sorts no later than" over a list of order keys. -/
def orderLe (ks : List OrderKey) (a b : PostRow) : Bool :=
  match ks with
  | [] => true
  | k :: rest =>
    match keyCmp k a b with
    | .lt => true
    | .eq => orderLe rest a b
    | .gt => false

/-- Insert into a sorted list. -/
def insertSorted (le : PostRow → PostRow → Bool) (a : PostRow) :
    List PostRow → List PostRow
  | [] => [a]
  | b :: bs => if le a b then a :: b :: bs else b :: insertSorted le a bs

/-- Sort by insertion (the server executing `ORDER BY`). -/
def sortPosts (le : PostRow → PostRow → Bool) : List PostRow → List PostRow
  | [] => []
  | a :: as => insertSorted le a (sortPosts le as)

/-- Execute an accumulated query against the posts table: apply the
filters, the accumulated order keys, and the final `limit` parameter. -/
def runQuery (q : PostsQuery) (db : List PostRow) : List PostRow :=
  let rows := db.filter fun p =>
    (!q.eqPrivacyPublic || decide (p.privacy_level = .public)) &&
      (match q.eqRecipient with
       | none => true
       | some u => decide (p.recipient_id = some u))
  let sorted := sortPosts (orderLe q.orderKeys) rows
  match q.limitParam with
  | none => sorted
  | some n => sorted.take n

/-- A table of 21 public posts with distinct engagement scores. -/
def c8Posts : List PostRow :=
  (List.range 21).map fun i =>
    { id := i
      author_id := none
      recipient_id := none
      privacy_level := .public
      recipient_visibility_override := none
      like_count := 0
      comment_count := 0
      engagement_score := (i : ℚ)
      created_at := 0 }

/-- C8: evaluating the top-stories query of `Feed.loadPosts` on a table
of 21 public posts: the result only holds public posts and is ordered by
engagement score descending, but it has 21 rows, exceeding the fixed page
size `FEED_LIMITS.TOP_STORIES = 20`: the unconditional
`.limit(FEED_LIMITS.DEFAULT)` at feed.tsx line 91 replaces the
`.limit(FEED_LIMITS.TOP_STORIES)` set in the `top` branch, so the
effective page size is 50. -/
theorem top_stories_limit_exceeded_on_21_posts :
    (buildFeedQuery .top none).limitParam = some FEED_LIMITS_DEFAULT ∧
      (runQuery (buildFeedQuery .top none) c8Posts).length = 21 ∧
      ¬((runQuery (buildFeedQuery .top none) c8Posts).length
          ≤ FEED_LIMITS_TOP_STORIES) ∧
      (∀ p ∈ runQuery (buildFeedQuery .top none) c8Posts,
        p.privacy_level = .public) ∧
      (runQuery (buildFeedQuery .top none) c8Posts).Pairwise
        (fun a b => b.engagement_score ≤ a.engagement_score) := by
  refine ⟨rfl, by decide, by decide, by decide, by decide⟩

end Ripple
